import Mathlib

/-!
# Verification of the filesystem watch subsystem of `rust-bootstrap`

Shallow embedding of `src-tauri/src/watcher.rs` and the watch-related
commands of `src-tauri/src/commands.rs`.  Paths are modelled as plain
strings (the program only ever compares canonical UTF-8 paths, where
`PathBuf` component equality and string equality coincide); the native
`notify` watcher, the Tauri event bus and the real filesystem are
modelled as explicit oracles passed to the embedded functions.
-/

set_option autoImplicit false

namespace RustBootstrap

/-- Top-level shape of `notify::EventKind`.  The Rust code matches with
`EventKind::Modify(_) | EventKind::Create(_) | EventKind::Remove(_)`, so the
sub-kinds carried by each variant are irrelevant and dropped here. -/
inductive EventKind where
  | any
  | access
  | create
  | modify
  | remove
  | other
  deriving DecidableEq, Repr

/-- A raw filesystem event as delivered by `notify`: its kind and the list of
affected paths (`event.paths`). -/
structure RawEvent where
  kind : EventKind
  paths : List String
  deriving DecidableEq, Repr

/-- The two notification payload shapes the watcher emits: `()` for a single
file watch (`Signal`) and a non-empty list of path strings for a directory
watch (`PathList`). -/
inductive Notification where
  | signal
  | pathList (paths : List String)
  deriving DecidableEq, Repr

/-- The filter specification: `watch_file` matches a single exact path,
`watch_directory` matches by file extension (the source hard-codes the
suffix `"md"`; the suffix is a parameter here and every theorem about the
directory watch instantiates it with `"md"`). -/
inductive FilterSpec where
  | exactPath (p : String)
  | extensionMatch (suffix : String)
  deriving DecidableEq, Repr

/-- The kind gate both watcher callbacks apply:
`matches!(event.kind, EventKind::Modify(_) | EventKind::Create(_) | EventKind::Remove(_))`. -/
def kindGate : EventKind → Bool
  | .create => true
  | .modify => true
  | .remove => true
  | .any => false
  | .access => false
  | .other => false

/-- Split a list of characters at every occurrence of the separator `c`
(the pieces do not contain `c`; n separators yield n+1 pieces). -/
def splitOnChar (c : Char) : List Char → List (List Char)
  | [] => [[]]
  | x :: xs =>
    match splitOnChar c xs with
    | [] => [[]]
    | piece :: rest =>
      if x = c then [] :: piece :: rest else (x :: piece) :: rest

/-- `std::path::Path::file_name` on a `/`-separated path string: the last
component after dropping empty and `"."` components, and `none` when the
path is empty or ends in `".."`. -/
def fileNameOf (p : String) : Option String :=
  match ((splitOnChar '/' p.data).filter
      (fun cs => cs ≠ [] && cs ≠ ['.'])).getLast? with
  | none => none
  | some cs => if cs = ['.', '.'] then none else some (String.mk cs)

/-- `std::path::Path::extension`: `none` when there is no file name, when the
file name contains no `.`, or when the file name begins with `.` and has no
other `.`; otherwise the portion of the file name after the final `.`. -/
def extension (p : String) : Option String :=
  match fileNameOf p with
  | none => none
  | some n =>
    match splitOnChar '.' n.data with
    | [] => none
    | [_] => none
    | [[], _] => none
    | parts => parts.getLast?.map String.mk

/-- The extension rule exactly as the specification words it: the portion of
the final path component after the last `.` — with no special case for a
component that begins with `.` (compare with `extension`, which follows the
Rust standard library and has that special case). -/
def specExtension (p : String) : Option String :=
  match fileNameOf p with
  | none => none
  | some n =>
    match splitOnChar '.' n.data with
    | [] => none
    | [_] => none
    | parts => parts.getLast?.map String.mk

/-- The per-path test under the specification's wording of the extension
rule (used only to compare the specification against the code). -/
def specExtMatches (suffix p : String) : Bool :=
  specExtension p = some suffix

/-- The per-path test used in both closures of `watch_directory`
(both for the callback's `has_md_file` and the delivery loop's filter),
with the hard-coded `"md"` generalised to `suffix`:
`p.extension().and_then(|ext| ext.to_str()).map(|ext| ext == suffix).unwrap_or(false)`. -/
def extMatches (suffix p : String) : Bool :=
  extension p = some suffix

/-- The projection the delivery loop of `watch_directory` applies to
`event.paths` (the `filter_map` producing `md_files`). -/
def extFilter (suffix : String) (paths : List String) : List String :=
  paths.filter (extMatches suffix)

/-- `md_files` as computed in `watch_directory` with its hard-coded suffix. -/
def mdFiles (paths : List String) : List String :=
  extFilter "md" paths

/-- End-to-end Filter/Normalize, composing the watcher callback's gate with
the delivery task's check, as one pure function `RawEvent × FilterSpec →
Option Notification`.
* `exactPath p` (from `watch_file`): the callback forwards the event iff the
  kind gate passes; the delivery loop emits `()` iff `event.paths.first()`
  equals the watched path.
* `extensionMatch suffix` (from `watch_directory`, where `suffix = "md"` is
  hard-coded): the callback forwards iff the kind gate passes and some path
  matches the extension; the delivery loop emits the filtered list iff it is
  non-empty. -/
def filterNormalize (e : RawEvent) : FilterSpec → Option Notification
  | .exactPath p =>
    if kindGate e.kind then
      match e.paths.head? with
      | some q => if q = p then some .signal else none
      | none => none
    else none
  | .extensionMatch suffix =>
    if kindGate e.kind && e.paths.any (extMatches suffix) then
      if (extFilter suffix e.paths).isEmpty then none
      else some (.pathList (extFilter suffix e.paths))
    else none

/-- The filter of `watch_file` for a given watched path. -/
def watchFileFilter (filePath : String) (e : RawEvent) : Option Notification :=
  filterNormalize e (.exactPath filePath)

/-- The filter of `watch_directory` (suffix fixed to the source's `"md"`). -/
def watchDirectoryFilter (e : RawEvent) : Option Notification :=
  filterNormalize e (.extensionMatch "md")

/-! ## Delivery loops

The spawned tasks of `watch_file` and `watch_directory` drain the mpsc
queue in FIFO order.  The queue holds the events that passed the callback
gate; each queued event is paired here with the outcome of the
`app_handle.emit_all` call for it (`none` = the emit succeeds, `some err` =
it fails with error text `err`).  A run returns the list of delivered
notifications and the list of log lines printed by `eprintln!`. -/

/-- The log line `eprintln!("Failed to emit event {}: {}", event_name, e)`
shared by both delivery loops. -/
def emitLogLine (event_name err : String) : String :=
  "Failed to emit event " ++ event_name ++ ": " ++ err

/-- The delivery loop of `watch_file`: for each queued event, if
`event.paths.first()` equals the watched path, emit `()`; a failed emit is
logged and the loop continues. -/
def fileDeliveryLoop (filePath event_name : String) :
    List (RawEvent × Option String) → List Notification × List String
  | [] => ([], [])
  | (e, emitErr) :: rest =>
    let t := fileDeliveryLoop filePath event_name rest
    match e.paths.head? with
    | none => t
    | some q =>
      if q = filePath then
        match emitErr with
        | none => (Notification.signal :: t.1, t.2)
        | some err => (t.1, emitLogLine event_name err :: t.2)
      else t

/-- The delivery loop of `watch_directory`: for each queued event, compute
`md_files`; if non-empty, emit it; a failed emit is logged and the loop
continues. -/
def dirDeliveryLoop (event_name : String) :
    List (RawEvent × Option String) → List Notification × List String
  | [] => ([], [])
  | (e, emitErr) :: rest =>
    let t := dirDeliveryLoop event_name rest
    let md := mdFiles e.paths
    if md.isEmpty then t
    else
      match emitErr with
      | none => (Notification.pathList md :: t.1, t.2)
      | some err => (t.1, emitLogLine event_name err :: t.2)

/-! ## Watch setup

`RecommendedWatcher::new` and `watcher.watch` are native calls; their
outcomes are an oracle.  `{:?}` on a `PathBuf` prints the path quoted, so
the embedded error messages wrap the path in `"`. -/

/-- Oracle for the two fallible native calls made during watch setup:
the error text of `RecommendedWatcher::new` and of `watcher.watch`
(`none` = the call succeeds). -/
structure NativeOutcome where
  createErr : Option String
  watchErr : Option String
  deriving DecidableEq, Repr

/-- `notify::RecursiveMode`. -/
inductive RecursiveMode where
  | nonRecursive
  | recursive
  deriving DecidableEq, Repr

/-- A successfully established watch: the root the native watcher was bound
to, the recursion mode, and the channel name the delivery task emits on. -/
structure EstablishedWatch where
  root : String
  mode : RecursiveMode
  channel : String
  deriving DecidableEq, Repr

/-- The setup phase of `watch_file`: create the watcher, bind it
non-recursively to `file_path`, and only then spawn the delivery task.
Returns the command result and the established watch (`none` when setup
failed before the delivery task was spawned). -/
def watch_file (o : NativeOutcome) (file_path event_name : String) :
    Except String Unit × Option EstablishedWatch :=
  match o.createErr with
  | some e => (.error ("Failed to create file watcher: " ++ e), none)
  | none =>
    match o.watchErr with
    | some e =>
      (.error ("Failed to watch file: \"" ++ file_path ++ "\": " ++ e), none)
    | none => (.ok (), some ⟨file_path, .nonRecursive, event_name⟩)

/-- The setup phase of `watch_directory`: create the watcher, bind it
recursively to `dir_path`, and only then spawn the delivery task. -/
def watch_directory (o : NativeOutcome) (dir_path event_name : String) :
    Except String Unit × Option EstablishedWatch :=
  match o.createErr with
  | some e => (.error ("Failed to create directory watcher: " ++ e), none)
  | none =>
    match o.watchErr with
    | some e =>
      (.error ("Failed to watch directory: \"" ++ dir_path ++ "\": " ++ e), none)
    | none => (.ok (), some ⟨dir_path, .recursive, event_name⟩)

/-! ## Command layer (`commands.rs`)

The real filesystem is an oracle: `fsExists` answers `Path::exists`, and a
directory read is a list of `Result<DirEntry>` values. -/

/-- `PathBuf::join` on string paths. -/
def joinPath (base component : String) : String :=
  base ++ "/" ++ component

/-- The `.bluekit/kits` directory of a project. -/
def kitsDirOf (project_path : String) : String :=
  joinPath (joinPath project_path ".bluekit") "kits"

/-- `watch_project_kits`: error out when the project's `.bluekit/kits`
directory does not exist, otherwise establish a recursive tree watch on it
with channel name `"project-kits-changed"`. -/
def watch_project_kits (fsExists : String → Bool) (o : NativeOutcome)
    (project_path : String) : Except String Unit × Option EstablishedWatch :=
  let kits_dir := kitsDirOf project_path
  if !fsExists kits_dir then
    (.error ("Kits directory does not exist: \"" ++ kits_dir ++ "\""), none)
  else
    watch_directory o kits_dir "project-kits-changed"

/-- A filesystem write performed by a command, in execution order. -/
inductive FsAction where
  | createDirAll (path : String)
  | copyFile (src dst : String)
  deriving DecidableEq, Repr

/-- The global store path `~/.bluekit/kits/<kit_name>`. -/
def globalKitPath (home kit_name : String) : String :=
  joinPath (joinPath (joinPath home ".bluekit") "kits") kit_name

/-- `copy_kit_to_project`: resolve the global and project kit paths, create
the project's `.bluekit/kits` directory (`fs::create_dir_all` on the
parent), then check that the kit exists in the global store, then copy.
Oracles: the home directory (`none` = `dirs::home_dir()` failed), the
outcome of `create_dir_all`, whether the global kit path exists, and the
outcome of `fs::copy`.  Returns the command result together with the
filesystem writes performed, in order. -/
def copy_kit_to_project (home : Option String) (createDirErr : Option String)
    (globalKitExists : Bool) (copyErr : Option String)
    (kit_name project_path : String) : Except String String × List FsAction :=
  match home with
  | none => (.error "Could not find home directory", [])
  | some h =>
    let global_kit_path := globalKitPath h kit_name
    let project_kit_path := joinPath (kitsDirOf project_path) kit_name
    match createDirErr with
    | some e => (.error ("Failed to create kits directory: " ++ e), [])
    | none =>
      let created := [FsAction.createDirAll (kitsDirOf project_path)]
      if !globalKitExists then
        (.error ("Kit not found in global store: " ++ kit_name), created)
      else
        match copyErr with
        | some e => (.error ("Failed to copy kit: " ++ e), created)
        | none =>
          (.ok ("Kit " ++ kit_name ++ " copied to project"),
           created ++ [FsAction.copyFile global_kit_path project_kit_path])

/-- A directory entry as seen by the listing commands: its file name and
what `entry.path().is_file()` / `is_dir()` answer for it. -/
structure DirEntry where
  name : String
  isFile : Bool
  isDir : Bool
  deriving DecidableEq, Repr

/-- The shared loop body of the listing commands: fail on the first
erroneous entry (`entry.map_err(..)?`), otherwise collect the names of the
entries satisfying `keep`, in directory order. -/
def collectNames (keep : DirEntry → Bool) :
    List (Except String DirEntry) → Except String (List String)
  | [] => .ok []
  | .error e :: _ => .error ("Failed to read directory entry: " ++ e)
  | .ok d :: rest =>
    match collectNames keep rest with
    | .error e => .error e
    | .ok names => .ok (if keep d then d.name :: names else names)

/-- The shared shape of the four listing commands: when the directory does
not exist return `Ok(vec![])`, otherwise read it (the `readDir` oracle
models `fs::read_dir`, failing with the given label) and collect names. -/
def listNames (fsExists : String → Bool)
    (readDir : String → Except String (List (Except String DirEntry)))
    (dir label : String) (keep : DirEntry → Bool) :
    Except String (List String) :=
  if !fsExists dir then .ok []
  else
    match readDir dir with
    | .error e => .error ("Failed to read " ++ label ++ ": " ++ e)
    | .ok entries => collectNames keep entries

/-- `get_project_kits`: file names under the project's `.bluekit/kits`. -/
def get_project_kits (fsExists : String → Bool)
    (readDir : String → Except String (List (Except String DirEntry)))
    (project_path : String) : Except String (List String) :=
  listNames fsExists readDir (kitsDirOf project_path)
    "kits directory" (fun d => d.isFile)

/-- `get_scrapbook_items`: file names under `.bluekit/scrapbook`. -/
def get_scrapbook_items (fsExists : String → Bool)
    (readDir : String → Except String (List (Except String DirEntry)))
    (project_path : String) : Except String (List String) :=
  listNames fsExists readDir
    (joinPath (joinPath project_path ".bluekit") "scrapbook")
    "scrapbook directory" (fun d => d.isFile)

/-- `get_blueprints`: directory names under `.bluekit/blueprints`. -/
def get_blueprints (fsExists : String → Bool)
    (readDir : String → Except String (List (Except String DirEntry)))
    (project_path : String) : Except String (List String) :=
  listNames fsExists readDir
    (joinPath (joinPath project_path ".bluekit") "blueprints")
    "blueprints directory" (fun d => d.isDir)

/-- `get_project_diagrams`: file names under `.bluekit/diagrams`. -/
def get_project_diagrams (fsExists : String → Bool)
    (readDir : String → Except String (List (Except String DirEntry)))
    (project_path : String) : Except String (List String) :=
  listNames fsExists readDir
    (joinPath (joinPath project_path ".bluekit") "diagrams")
    "diagrams directory" (fun d => d.isFile)

/-- A `serde_json::Value`, abstracted: only the object shape matters to the
registry command; every non-object value parses to `other`. -/
inductive JsonValue where
  | object (fields : List (String × JsonValue))
  | other

/-- `get_registry_path`: `~/.bluekit/projectRegistry.json`, failing when the
home directory cannot be resolved. -/
def get_registry_path (home : Option String) : Except String String :=
  match home with
  | none => .error "Could not find home directory"
  | some h => .ok (joinPath (joinPath h ".bluekit") "projectRegistry.json")

/-- `get_project_registry`: when the registry file does not exist return
`Ok(json!({}))`; otherwise read it (`readFile` oracle) and parse it
(`parseJson` oracle). -/
def get_project_registry (home : Option String) (fsExists : String → Bool)
    (readFile : String → Except String String)
    (parseJson : String → Except String JsonValue) :
    Except String JsonValue :=
  match get_registry_path home with
  | .error e => .error e
  | .ok registry_path =>
    if !fsExists registry_path then .ok (.object [])
    else
      match readFile registry_path with
      | .error e => .error ("Failed to read registry file: " ++ e)
      | .ok content =>
        match parseJson content with
        | .error e => .error ("Failed to parse registry JSON: " ++ e)
        | .ok v => .ok v

/-! ## Theorems -/

/-- A list filtered by `f` is empty exactly when no element satisfies `f`. -/
theorem filter_isEmpty_eq_not_any {α : Type} (f : α → Bool) (l : List α) :
    (l.filter f).isEmpty = !l.any f := by
  induction l with
  | nil => rfl
  | cons x xs ih =>
    by_cases hx : f x = true
    · simp [List.filter_cons, hx]
    · simp only [Bool.not_eq_true] at hx
      simp [List.filter_cons, hx, ih]

/-- C1: the claim as frozen is false.  With `affected_paths =
["/a/c.txt", "/a/b.txt"]` and `ExactPath("/a/b.txt")`, the watched path is
contained in the list (at position 1) and the kind gate passes, yet the
filter produces no notification: `watch_file` compares only
`event.paths.first()` against the watched path. -/
theorem c1_counterexample :
    "/a/b.txt" ∈ ["/a/c.txt", "/a/b.txt"] ∧
    kindGate EventKind.modify = true ∧
    filterNormalize ⟨.modify, ["/a/c.txt", "/a/b.txt"]⟩
      (.exactPath "/a/b.txt") = none := by
  decide

/-- C1 (amended): for every raw event that passes the kind gate, under
`ExactPath(p)` the filter produces `Signal` iff the FIRST element of
`affected_paths` equals `p` (exact equality, not prefix). -/
theorem c1_exact_path_first_element (p : String) (e : RawEvent)
    (h : kindGate e.kind = true) :
    filterNormalize e (.exactPath p) = some .signal ↔
      e.paths.head? = some p := by
  simp only [filterNormalize, h, if_true]
  cases hh : e.paths.head? with
  | none => simp
  | some q => by_cases hq : q = p <;> simp [hq]

/-- C1 witness: a concrete event whose first path is the watched path
produces `Signal`. -/
theorem c1_exact_path_first_element_witness :
    filterNormalize ⟨.modify, ["/a/b.txt"]⟩ (.exactPath "/a/b.txt") =
      some .signal :=
  (c1_exact_path_first_element "/a/b.txt" ⟨.modify, ["/a/b.txt"]⟩ rfl).mpr rfl

/-- C2: the claim as frozen is false.  Under the claim's reading of
"extension" (the portion of the final path component after the last `.`),
the path `"/p/.md"` has extension `md`, so the claim predicts
`PathList(["/p/.md"])`; but `Path::extension` in the code treats a file
name that begins with `.` and has no other `.` as having no extension, so
the event is discarded. -/
theorem c2_counterexample :
    kindGate EventKind.modify = true ∧
    ["/p/.md"].filter (specExtMatches "md") = ["/p/.md"] ∧
    filterNormalize ⟨.modify, ["/p/.md"]⟩ (.extensionMatch "md") = none := by
  decide

/-- C2 (amended): for every raw event that passes the kind gate, under
`ExtensionMatch("md")` the result is `affected_paths` filtered, in original
order, to the paths whose extension — per `Path::extension`, where a final
component beginning with `.` and containing no other `.` has no extension —
equals `"md"`; when nothing matches the event is discarded. -/
theorem c2_extension_projection (e : RawEvent)
    (h : kindGate e.kind = true) :
    filterNormalize e (.extensionMatch "md") =
      if (extFilter "md" e.paths).isEmpty then none
      else some (.pathList (extFilter "md" e.paths)) := by
  simp only [filterNormalize, h, Bool.true_and]
  by_cases hany : e.paths.any (extMatches "md") = true
  · rw [if_pos hany]
  · simp only [Bool.not_eq_true] at hany
    have hemp : (extFilter "md" e.paths).isEmpty = true := by
      show (e.paths.filter (extMatches "md")).isEmpty = true
      rw [filter_isEmpty_eq_not_any, hany]
      rfl
    rw [if_neg (by rw [hany]; exact Bool.false_ne_true), if_pos hemp]

/-- C2 witness: the specification's worked example, evaluated through the
amended theorem. -/
theorem c2_extension_projection_witness :
    filterNormalize ⟨.modify, ["/p/readme.md", "/p/notes.txt", "/p/todo.md"]⟩
        (.extensionMatch "md") =
      some (.pathList ["/p/readme.md", "/p/todo.md"]) := by
  have h := c2_extension_projection
    ⟨.modify, ["/p/readme.md", "/p/notes.txt", "/p/todo.md"]⟩ rfl
  rw [h]
  decide

/-- C3: for every raw event and every filter spec, a produced `PathList`
notification is never empty. -/
theorem c3_no_empty_pathlist (e : RawEvent) (spec : FilterSpec)
    (ps : List String)
    (h : filterNormalize e spec = some (.pathList ps)) :
    ps ≠ [] := by
  cases spec with
  | exactPath p =>
    simp only [filterNormalize] at h
    split at h
    · split at h
      · split at h
        · exact absurd h (by simp)
        · exact absurd h (by simp)
      · exact absurd h (by simp)
    · exact absurd h (by simp)
  | extensionMatch suffix =>
    simp only [filterNormalize] at h
    split at h
    · split at h
      · exact absurd h (by simp)
      · rename_i hne
        have hps : extFilter suffix e.paths = ps := by
          have := Option.some.inj h
          injection this
        intro hnil
        rw [hnil] at hps
        rw [hps] at hne
        exact hne rfl
    · exact absurd h (by simp)

/-- C3 witness: a concrete matching event produces a non-empty list. -/
theorem c3_no_empty_pathlist_witness :
    filterNormalize ⟨.modify, ["/p/a.md"]⟩ (.extensionMatch "md") =
        some (.pathList ["/p/a.md"]) ∧
      (["/p/a.md"] : List String) ≠ [] :=
  ⟨by decide, c3_no_empty_pathlist ⟨.modify, ["/p/a.md"]⟩
    (.extensionMatch "md") ["/p/a.md"] (by decide)⟩

/-- C4: for every raw event whose kind is not Create/Modify/Remove, the
filter produces no notification, for both filter specs. -/
theorem c4_kind_gate (e : RawEvent) (spec : FilterSpec)
    (h1 : e.kind ≠ .create) (h2 : e.kind ≠ .modify)
    (h3 : e.kind ≠ .remove) :
    filterNormalize e spec = none := by
  obtain ⟨k, paths⟩ := e
  cases k with
  | create => exact absurd rfl h1
  | modify => exact absurd rfl h2
  | remove => exact absurd rfl h3
  | any => cases spec <;> rfl
  | access => cases spec <;> rfl
  | other => cases spec <;> rfl

/-- C4 witness: an access event with a matching path is dropped. -/
theorem c4_kind_gate_witness :
    filterNormalize ⟨.access, ["/p/a.md"]⟩ (.extensionMatch "md") = none :=
  c4_kind_gate ⟨.access, ["/p/a.md"]⟩ (.extensionMatch "md")
    (by decide) (by decide) (by decide)

/-- C5: when the native watch binding fails, `watch_file` returns the error
synchronously; the error message carries the root path and the underlying
OS error text, and the delivery task is never spawned. -/
theorem c5_setup_failure (o : NativeOutcome) (p n err : String)
    (h1 : o.createErr = none) (h2 : o.watchErr = some err) :
    watch_file o p n =
      (.error ("Failed to watch file: \"" ++ p ++ "\": " ++ err), none) := by
  unfold watch_file
  rw [h1, h2]

/-- C5 witness: a concrete failed binding on a non-existent registry path. -/
theorem c5_setup_failure_witness :
    watch_file ⟨none, some "No such file or directory (os error 2)"⟩
        "/home/u/.bluekit/projectRegistry.json" "project-registry-changed" =
      (.error ("Failed to watch file: \""
          ++ "/home/u/.bluekit/projectRegistry.json" ++ "\": "
          ++ "No such file or directory (os error 2)"), none) :=
  c5_setup_failure ⟨none, some "No such file or directory (os error 2)"⟩
    "/home/u/.bluekit/projectRegistry.json" "project-registry-changed"
    "No such file or directory (os error 2)" rfl rfl

/-- Processing a concatenation of two queues gives the concatenation of the
results: the file delivery loop carries no state across events. -/
theorem fileDeliveryLoop_append (fp n : String)
    (xs ys : List (RawEvent × Option String)) :
    fileDeliveryLoop fp n (xs ++ ys) =
      ((fileDeliveryLoop fp n xs).1 ++ (fileDeliveryLoop fp n ys).1,
       (fileDeliveryLoop fp n xs).2 ++ (fileDeliveryLoop fp n ys).2) := by
  induction xs with
  | nil => simp [fileDeliveryLoop]
  | cons x xs ih =>
    obtain ⟨e, r⟩ := x
    simp only [List.cons_append, fileDeliveryLoop, List.append_eq]
    rw [ih]
    cases hh : e.paths.head? with
    | none => rfl
    | some q =>
      by_cases hq : q = fp
      · subst hq
        cases r with
        | none => simp
        | some err => simp
      · simp [hq]

/-- Processing a concatenation of two queues gives the concatenation of the
results: the directory delivery loop carries no state across events. -/
theorem dirDeliveryLoop_append (n : String)
    (xs ys : List (RawEvent × Option String)) :
    dirDeliveryLoop n (xs ++ ys) =
      ((dirDeliveryLoop n xs).1 ++ (dirDeliveryLoop n ys).1,
       (dirDeliveryLoop n xs).2 ++ (dirDeliveryLoop n ys).2) := by
  induction xs with
  | nil => simp [dirDeliveryLoop]
  | cons x xs ih =>
    obtain ⟨e, r⟩ := x
    simp only [List.cons_append, dirDeliveryLoop, List.append_eq]
    rw [ih]
    by_cases hmd : (mdFiles e.paths).isEmpty = true
    · simp [hmd]
    · cases r with
      | none => simp [hmd]
      | some err => simp [hmd]

/-- C6: filtering and delivery are pure and order-independent: the
notifications and log lines produced for an event in the middle of a queue
are exactly those produced for that event alone, independent of everything
processed before or after it; identical inputs give identical results. -/
theorem c6_filter_pure (fp n : String)
    (es₁ es₂ : List (RawEvent × Option String))
    (x : RawEvent × Option String) :
    fileDeliveryLoop fp n (es₁ ++ x :: es₂) =
      ((fileDeliveryLoop fp n es₁).1 ++ (fileDeliveryLoop fp n [x]).1
         ++ (fileDeliveryLoop fp n es₂).1,
       (fileDeliveryLoop fp n es₁).2 ++ (fileDeliveryLoop fp n [x]).2
         ++ (fileDeliveryLoop fp n es₂).2) ∧
    dirDeliveryLoop n (es₁ ++ x :: es₂) =
      ((dirDeliveryLoop n es₁).1 ++ (dirDeliveryLoop n [x]).1
         ++ (dirDeliveryLoop n es₂).1,
       (dirDeliveryLoop n es₁).2 ++ (dirDeliveryLoop n [x]).2
         ++ (dirDeliveryLoop n es₂).2) := by
  constructor
  · rw [show es₁ ++ x :: es₂ = es₁ ++ ([x] ++ es₂) from rfl,
       fileDeliveryLoop_append, fileDeliveryLoop_append]
    simp [List.append_assoc]
  · rw [show es₁ ++ x :: es₂ = es₁ ++ ([x] ++ es₂) from rfl,
       dirDeliveryLoop_append, dirDeliveryLoop_append]
    simp [List.append_assoc]

/-- C7: a failed publish is logged with the channel name and error text and
otherwise ignored: the delivery loop does not terminate and processes the
remaining queued events exactly as it otherwise would, for both watch
kinds. -/
theorem c7_publish_failure_logged (fp n n' : String) (e e' : RawEvent)
    (err err' : String) (rest rest' : List (RawEvent × Option String))
    (h : e.paths.head? = some fp)
    (h' : (mdFiles e'.paths).isEmpty = false) :
    fileDeliveryLoop fp n ((e, some err) :: rest) =
      ((fileDeliveryLoop fp n rest).1,
       emitLogLine n err :: (fileDeliveryLoop fp n rest).2) ∧
    dirDeliveryLoop n' ((e', some err') :: rest') =
      ((dirDeliveryLoop n' rest').1,
       emitLogLine n' err' :: (dirDeliveryLoop n' rest').2) := by
  constructor
  · simp [fileDeliveryLoop, h]
  · simp [dirDeliveryLoop, h']

/-- C7 witness: one failed emit on each watch kind, queue drained to the
end, failure logged with channel name and error text. -/
theorem c7_publish_failure_logged_witness :
    fileDeliveryLoop "/r.json" "project-registry-changed"
        [(⟨.modify, ["/r.json"]⟩, some "emit failed")] =
      ([], [emitLogLine "project-registry-changed" "emit failed"]) ∧
    dirDeliveryLoop "project-kits-changed"
        [(⟨.create, ["/k/a.md"]⟩, some "emit failed")] =
      ([], [emitLogLine "project-kits-changed" "emit failed"]) := by
  have h := c7_publish_failure_logged "/r.json" "project-registry-changed"
    "project-kits-changed" ⟨.modify, ["/r.json"]⟩ ⟨.create, ["/k/a.md"]⟩
    "emit failed" "emit failed" [] [] (by decide) (by decide)
  exact ⟨h.1, h.2⟩

/-- C8: `watch_project_kits` errors out (establishing no watch) when the
project's `.bluekit/kits` directory does not exist, and otherwise
establishes a recursive tree watch on that directory with channel name
`"project-kits-changed"`. -/
theorem c8_watch_project_kits (fs : String → Bool) (o : NativeOutcome)
    (project_path : String) :
    (fs (kitsDirOf project_path) = false →
      watch_project_kits fs o project_path =
        (.error ("Kits directory does not exist: \""
            ++ kitsDirOf project_path ++ "\""), none)) ∧
    (fs (kitsDirOf project_path) = true → o.createErr = none →
      o.watchErr = none →
      watch_project_kits fs o project_path =
        (.ok (), some ⟨kitsDirOf project_path, .recursive,
          "project-kits-changed"⟩)) := by
  constructor
  · intro hf
    simp [watch_project_kits, hf]
  · intro hf h1 h2
    simp [watch_project_kits, hf, watch_directory, h1, h2]

/-- C8 witness: with an existing kits directory and a healthy native
watcher, a recursive watch on `/proj/.bluekit/kits` is established. -/
theorem c8_watch_project_kits_witness :
    watch_project_kits (fun _ => true) ⟨none, none⟩ "/proj" =
      (.ok (), some ⟨"/proj/.bluekit/kits", .recursive,
        "project-kits-changed"⟩) :=
  (c8_watch_project_kits (fun _ => true) ⟨none, none⟩ "/proj").2 rfl rfl rfl

/-- C9: when the named kit is absent from the global store,
`copy_kit_to_project` returns the "Kit not found" error, but only after
having already created the project's `.bluekit/kits` directory: the error
path leaves a filesystem write behind. -/
theorem c9_copy_kit_not_atomic (home kit proj : String)
    (copyErr : Option String) :
    copy_kit_to_project (some home) none false copyErr kit proj =
      (.error ("Kit not found in global store: " ++ kit),
       [FsAction.createDirAll (kitsDirOf proj)]) :=
  rfl

/-- C10: every read-only listing command treats a missing source as empty:
the four directory listings return `Ok([])` when their `.bluekit`
subdirectory does not exist, and the registry command returns the empty
JSON object when the registry file does not exist. -/
theorem c10_missing_source_is_empty (fs : String → Bool)
    (readDir : String → Except String (List (Except String DirEntry)))
    (readFile : String → Except String String)
    (parseJson : String → Except String JsonValue)
    (project_path home : String) :
    (fs (kitsDirOf project_path) = false →
      get_project_kits fs readDir project_path = .ok []) ∧
    (fs (joinPath (joinPath project_path ".bluekit") "scrapbook") = false →
      get_scrapbook_items fs readDir project_path = .ok []) ∧
    (fs (joinPath (joinPath project_path ".bluekit") "blueprints") = false →
      get_blueprints fs readDir project_path = .ok []) ∧
    (fs (joinPath (joinPath project_path ".bluekit") "diagrams") = false →
      get_project_diagrams fs readDir project_path = .ok []) ∧
    (fs (joinPath (joinPath home ".bluekit") "projectRegistry.json") = false →
      get_project_registry (some home) fs readFile parseJson =
        .ok (.object [])) := by
  refine ⟨?_, ?_, ?_, ?_, ?_⟩ <;> intro hf <;>
    simp [get_project_kits, get_scrapbook_items, get_blueprints,
      get_project_diagrams, get_project_registry, get_registry_path,
      listNames, hf]

/-- C10 witness: on a filesystem where nothing exists, all five commands
answer with their empty value. -/
theorem c10_missing_source_is_empty_witness :
    get_project_kits (fun _ => false) (fun _ => .ok []) "/proj" = .ok [] ∧
    get_scrapbook_items (fun _ => false) (fun _ => .ok []) "/proj" =
      .ok [] ∧
    get_blueprints (fun _ => false) (fun _ => .ok []) "/proj" = .ok [] ∧
    get_project_diagrams (fun _ => false) (fun _ => .ok []) "/proj" =
      .ok [] ∧
    get_project_registry (some "/home/u") (fun _ => false)
      (fun _ => .ok "") (fun _ => .ok .other) = .ok (.object []) := by
  have h := c10_missing_source_is_empty (fun _ => false) (fun _ => .ok [])
    (fun _ => .ok "") (fun _ => .ok .other) "/proj" "/home/u"
  exact ⟨h.1 rfl, h.2.1 rfl, h.2.2.1 rfl, h.2.2.2.1 rfl, h.2.2.2.2 rfl⟩

end RustBootstrap
